import Mathlib

/-!
# hwFractal: capability negotiation, device selection and staged start-up

A shallow embedding of `src/application.c`.

* `uint32_t` counters are natural numbers reduced modulo `2 ^ 32` after every increment.
* A `const char *` stored in an enabled array is a `Ptr`: it records which buffer the
  pointer points into and at which index, so that the provenance of every stored pointer
  can be stated.
* A `calloc`ed array of pointers is a list of `Option Ptr`, `none` being `NULL`.
* A store outside the allocated array is undefined behaviour (`Run.ub`); the interactive
  prompt that never receives a valid index never returns (`Run.hang`).
* The Vulkan / GLFW runtime is a record of the answers it gives (`Runtime`).
-/

namespace HwFractal

/-! ## Machine integers -/

/-- Number of values of a `uint32_t`. -/
abbrev UINT32_MOD : Nat := 2 ^ 32

/-- Conversion of a signed value to `uint32_t` (the usual arithmetic conversion that a
comparison against a `uint32_t` applies). -/
def toU32 (x : Int) : Nat := (x % (2 ^ 32 : Int)).toNat

/-! ## Outcomes of a run -/

/-- Outcome of running a piece of the program. -/
inductive Run (α : Type) where
  /-- undefined behaviour: a store outside an allocated array -/
  | ub : Run α
  /-- the call never returns (the prompt loop never gets a valid index) -/
  | hang : Run α
  /-- the call returns -/
  | ret (a : α) : Run α
  deriving DecidableEq, Repr

/-! ## Capability negotiation (`vulkan_init`, lines 133-191 and 224-281) -/

/-- A `const char *` as stored in an enabled array: the buffer it points into and the
index of the element. `required n` is `required_*[n]`, `requested n` is `requested_*[n]`,
`available i` is `available_*[i].extensionName` / `.layerName`. -/
inductive Ptr where
  | required (n : Nat) : Ptr
  | requested (n : Nat) : Ptr
  | available (i : Nat) : Ptr
  deriving DecidableEq, Repr

/-- The three name buffers one negotiation block works on. -/
structure Names where
  required : List String
  requested : List String
  available : List String
  deriving DecidableEq, Repr

/-- The string a pointer points to. -/
def Names.deref (m : Names) : Ptr → Option String
  | Ptr.required n => m.required[n]?
  | Ptr.requested n => m.requested[n]?
  | Ptr.available i => m.available[i]?

/-- The counting loops (lines 137-143, 144-150, 227-233, 234-240): for every name and
every available entry, `++found` when `strcmp` gives 0. `found` is a `uint32_t`. -/
def count_found (names available : List String) (found : Nat) : Nat :=
  names.foldl
    (fun found name =>
      available.foldl
        (fun found a => if name = a then (found + 1) % UINT32_MOD else found) found)
    found

/-- The enabled array while it is being filled: the `calloc`ed slots and the write
index `enabled_*_free`. -/
structure Buf where
  slots : List (Option Ptr)
  free : Nat
  deriving DecidableEq, Repr

/-- One store `enabled[enabled_free++] = p`. A store at an index outside the allocated
array is undefined behaviour (`none`). -/
def Buf.put (b : Buf) (p : Ptr) : Option Buf :=
  if b.free < b.slots.length then
    some { slots := b.slots.set b.free (some p), free := (b.free + 1) % UINT32_MOD }
  else none

/-- The fill loops (lines 167-173, 174-180, 257-263, 264-270): for every index `n` of
`names` and every index `i` of `available`, store the pointer `src n i` when `strcmp`
gives 0. -/
def fill (src : Nat → Nat → Ptr) (names available : List String) (b : Option Buf) :
    Option Buf :=
  names.enum.foldl
    (fun b nn =>
      available.enum.foldl
        (fun b ia => if nn.2 = ia.2 then b.bind (fun b => b.put (src nn.1 ia.1)) else b) b)
    b

/-- Result of one negotiation block. -/
inductive Negotiation where
  /-- the jump to `set_ext_err` / `set_lay_err`: nothing allocated, nothing stored in `app` -/
  | fail : Negotiation
  /-- a fill loop stored outside the allocated array -/
  | ub : Negotiation
  /-- the block ran to its end: `enabled_*_count` and the enabled array -/
  | ok (count : Nat) (enabled : List (Option Ptr)) : Negotiation
  deriving DecidableEq, Repr

/-- One negotiation block: count, check the required count, allocate
`required_found + requested_found` slots, fill. `srcRequired` and `srcRequested` give the
pointer each fill loop stores. -/
def negotiate (srcRequired srcRequested : Nat → Nat → Ptr) (m : Names) : Negotiation :=
  let required_found := count_found m.required m.available 0
  let requested_found := count_found m.requested m.available 0
  if required_found = m.required.length then
    let enabled_count := (required_found + requested_found) % UINT32_MOD
    let enabled : Option Buf := some { slots := List.replicate enabled_count none, free := 0 }
    match fill srcRequested m.requested m.available
        (fill srcRequired m.required m.available enabled) with
    | none => Negotiation.ub
    | some b => Negotiation.ok enabled_count b.slots
  else Negotiation.fail

/-- The extension block (lines 134-191): the stored pointers are `required_extensions[n]`
(line 170) and `requested_extensions[n]` (line 177). -/
def negotiate_extensions (m : Names) : Negotiation :=
  negotiate (fun n _ => Ptr.required n) (fun n _ => Ptr.requested n) m

/-- The layer block (lines 225-281): both fill loops store `available_layers[i].layerName`
(lines 260 and 267). -/
def negotiate_layers (m : Names) : Negotiation :=
  negotiate (fun _ i => Ptr.available i) (fun _ i => Ptr.available i) m

/-! ## Auxiliary descriptions of the loops -/

/-- The pointers the two nested fill loops store, in the order of the stores. -/
def stores (src : Nat → Nat → Ptr) (names available : List (Nat × String)) : List Ptr :=
  names.flatMap fun nn =>
    available.filterMap fun ia => if nn.2 = ia.2 then some (src nn.1 ia.1) else none

/-- A sequence of stores `enabled[enabled_free++] = p`. -/
def putAll (ws : List Ptr) (b : Option Buf) : Option Buf :=
  ws.foldl (fun b p => b.bind fun b => b.put p) b

/-- Number of pairs (name, available entry) on which `strcmp` gives 0. -/
def pairs (names available : List String) : Nat :=
  (names.map fun name => available.count name).sum

/-! ## The application state and the runtime -/

/-- The constant `VK_SUCCESS`. -/
abbrev VK_SUCCESS : Int := 0

/-- The constant `VK_QUEUE_GRAPHICS_BIT`. -/
abbrev VK_QUEUE_GRAPHICS_BIT : Nat := 1

/-- The fields of `struct Config` that `application.c` reads or writes (the declaration
is in `application.h`, which is not among the sources; `device_pick` is a 32-bit signed
integer, `-1` meaning interactive selection). -/
structure Config where
  requested_extensions : List String
  requested_layers : List String
  device_pick : Int
  deriving DecidableEq, Repr

/-- What the runtime reports for one `VkPhysicalDevice`: its features and the
`queueFlags` of its queue families. -/
structure PhysicalDevice where
  handle : Nat
  geometryShader : Bool
  shaderFloat64 : Bool
  queue_family : List Nat
  deriving DecidableEq, Repr

/-- Record `struct Application` (lines 14-30). Handles are `true` when set; the enabled arrays
are `none` when the pointer is `NULL`. -/
structure Application where
  config : Config
  window : Bool
  vk_instance : Bool
  enabled_extension_count : Nat
  enabled_extensions : Option (List (Option Ptr))
  enabled_layer_count : Nat
  enabled_layers : Option (List (Option Ptr))
  physical_device : Option PhysicalDevice
  device : Bool
  graphics_family : Nat
  graphics_queue : Option Nat
  deriving DecidableEq, Repr

/-- The `calloc`ed `struct Application` with `config` set (lines 450-454). -/
def Application.calloc (config : Config) : Application :=
  { config := config, window := false, vk_instance := false,
    enabled_extension_count := 0, enabled_extensions := none,
    enabled_layer_count := 0, enabled_layers := none,
    physical_device := none, device := false, graphics_family := 0, graphics_queue := none }

/-- The answers of the C library, GLFW and the Vulkan runtime. -/
structure Runtime where
  /-- whether `calloc(1, sizeof(struct Application))` returns non-`NULL` -/
  calloc_app : Bool
  /-- whether `glfwInit() == GLFW_TRUE` -/
  glfwInit : Bool
  /-- whether `glfwCreateWindow` returns non-`NULL` -/
  glfwCreateWindow : Bool
  /-- whether `glfwVulkanSupported() == GLFW_TRUE` -/
  glfwVulkanSupported : Bool
  /-- result of `glfwGetRequiredInstanceExtensions`, `none` for `NULL` -/
  required_extensions : Option (List String)
  /-- the two results of `vkEnumerateInstanceExtensionProperties` and the names it gives -/
  extension_count_result : Int
  extension_result : Int
  available_extensions : List String
  /-- the two results of `vkEnumerateInstanceLayerProperties` and the names it gives -/
  layer_count_result : Int
  layer_result : Int
  available_layers : List String
  /-- result of `vkCreateInstance` -/
  vkCreateInstance : Int
  /-- the two results of `vkEnumeratePhysicalDevices` and the devices it gives -/
  device_count_result : Int
  device_result : Int
  devices : List PhysicalDevice
  /-- result of `vkCreateDevice` -/
  vkCreateDevice : Int
  deriving DecidableEq, Repr

/-- The resources the program acquires. -/
inductive Res where
  | app | glfw | window
  | available_extensions | enabled_extensions | available_layers | enabled_layers
  | vk_instance | devices | queue_family | device
  deriving DecidableEq, Repr

/-- Observable events: acquiring a resource (`calloc`, `glfwInit`, `glfwCreateWindow`,
`vkCreateInstance`, `vkCreateDevice`), releasing it (`free`, `glfwTerminate`,
`glfwDestroyWindow`, `vkDestroyInstance`, `vkDestroyDevice`), and one round of the
interactive prompt (`scanf`). -/
inductive Ev where
  | acquire (r : Res) : Ev
  | release (r : Res) : Ev
  | prompt : Ev
  deriving DecidableEq, Repr

/-- The resources acquired and not yet released after a sequence of events. -/
def live (trace : List Ev) : List Res :=
  trace.foldl
    (fun held e =>
      match e with
      | Ev.acquire r => held ++ [r]
      | Ev.release r => held.erase r
      | Ev.prompt => held)
    []

/-- What a stage function leaves behind: its return value, the application and the
events it performed. -/
structure Stage where
  ret : Int
  app : Application
  trace : List Ev
  deriving DecidableEq, Repr

/-! ## `window_init` (lines 33-57) -/

/-- Function `window_init`. -/
def window_init (rt : Runtime) (app : Application) : Stage :=
  if !rt.glfwInit then
    { ret := -1, app := app, trace := [] }
  else if !rt.glfwCreateWindow then
    { ret := -1, app := { app with window := false },
      trace := [Ev.acquire Res.glfw, Ev.release Res.glfw] }
  else
    { ret := 0, app := { app with window := true },
      trace := [Ev.acquire Res.glfw, Ev.acquire Res.window] }

/-! ## `vulkan_init` (lines 58-305) -/

/-- Function `vulkan_init`. The labels `get_ext_err` and `get_lay_err` sit below the `free` of
the buffer that was allocated just before the failing enumeration, so that buffer is not
released on those paths. -/
def vulkan_init (rt : Runtime) (app : Application) : Run Stage :=
  if !rt.glfwVulkanSupported then
    Run.ret { ret := -1, app := app, trace := [] }
  else
    match rt.required_extensions with
    | none => Run.ret { ret := -1, app := app, trace := [] }
    | some required_extensions =>
      if rt.extension_count_result ≠ VK_SUCCESS then
        Run.ret { ret := -1, app := app, trace := [] }
      else if rt.extension_result ≠ VK_SUCCESS then
        Run.ret { ret := -1, app := app, trace := [Ev.acquire Res.available_extensions] }
      else
        match negotiate_extensions
            { required := required_extensions, requested := app.config.requested_extensions,
              available := rt.available_extensions } with
        | Negotiation.fail =>
          Run.ret { ret := -1, app := app,
                    trace := [Ev.acquire Res.available_extensions,
                              Ev.release Res.available_extensions] }
        | Negotiation.ub => Run.ub
        | Negotiation.ok extension_count extensions =>
          let app1 : Application :=
            { app with enabled_extensions := some extensions,
                       enabled_extension_count := extension_count }
          if rt.layer_count_result ≠ VK_SUCCESS then
            Run.ret { ret := -1, app := app1,
                      trace := [Ev.acquire Res.available_extensions,
                                Ev.acquire Res.enabled_extensions,
                                Ev.release Res.available_extensions] }
          else if rt.layer_result ≠ VK_SUCCESS then
            Run.ret { ret := -1, app := app1,
                      trace := [Ev.acquire Res.available_extensions,
                                Ev.acquire Res.enabled_extensions,
                                Ev.acquire Res.available_layers,
                                Ev.release Res.available_extensions] }
          else
            match negotiate_layers
                { required := [], requested := app.config.requested_layers,
                  available := rt.available_layers } with
            | Negotiation.fail =>
              Run.ret { ret := -1, app := app1,
                        trace := [Ev.acquire Res.available_extensions,
                                  Ev.acquire Res.enabled_extensions,
                                  Ev.acquire Res.available_layers,
                                  Ev.release Res.available_layers,
                                  Ev.release Res.available_extensions] }
            | Negotiation.ub => Run.ub
            | Negotiation.ok layer_count layers =>
              let app2 : Application :=
                { app1 with enabled_layers := some layers, enabled_layer_count := layer_count }
              if rt.vkCreateInstance ≠ VK_SUCCESS then
                Run.ret { ret := -1, app := app2,
                          trace := [Ev.acquire Res.available_extensions,
                                    Ev.acquire Res.enabled_extensions,
                                    Ev.acquire Res.available_layers,
                                    Ev.acquire Res.enabled_layers,
                                    Ev.release Res.available_layers,
                                    Ev.release Res.available_extensions] }
              else
                Run.ret { ret := 0, app := { app2 with vk_instance := true },
                          trace := [Ev.acquire Res.available_extensions,
                                    Ev.acquire Res.enabled_extensions,
                                    Ev.acquire Res.available_layers,
                                    Ev.acquire Res.enabled_layers,
                                    Ev.acquire Res.vk_instance,
                                    Ev.release Res.available_layers,
                                    Ev.release Res.available_extensions] }

/-! ## `pick_physical_device` (lines 306-411) -/

/-- The validity test of lines 371 and 381: `device_pick < device_count` compares the
signed pick with a `uint32_t`, so the pick is converted to `uint32_t`. -/
def pick_valid (device_pick : Int) (device_count : Nat) : Bool :=
  decide (toU32 device_pick < device_count) && decide (device_pick ≥ 0)

/-- The listing loop (lines 336-368), as far as resources go: the queue-family buffer of
a device is allocated, and released at the end of the iteration; the `continue` of a
device without geometry shader skips the release. Nothing else is stored. -/
def list_devices (devices : List PhysicalDevice) : List Ev :=
  devices.flatMap fun d =>
    if !d.geometryShader then [Ev.acquire Res.queue_family]
    else [Ev.acquire Res.queue_family, Ev.release Res.queue_family]

/-- The prompt loop (lines 378-387): every round reads a value into `device_pick`; the
loop ends at the first valid value. `stdin` lists the values `scanf` stores; when it is
exhausted no valid value ever arrives and the loop does not end (`none`). The result is
the accepted value and the number of rounds. -/
def prompt_loop (device_count : Nat) : List Int → Option (Int × Nat)
  | [] => none
  | v :: rest =>
    if pick_valid v device_count then some (v, 1)
    else (prompt_loop device_count rest).map fun r => (r.1, r.2 + 1)

/-- The device choice (lines 370-388): `none` when the prompt never ends, otherwise
`some none` for an invalid explicit pick and `some (some (pick, rounds))` for the chosen
index and the number of prompt rounds. -/
def choose_device (device_pick : Int) (device_count : Nat) (stdin : List Int) :
    Option (Option (Int × Nat)) :=
  if device_pick ≠ -1 then
    if pick_valid device_pick device_count then some (some (device_pick, 0)) else some none
  else
    (prompt_loop device_count stdin).map some

/-- The loop of lines 395-400: every family with the graphics bit overwrites
`graphics_family` with its index. -/
def save_graphics_family (queue_family : List Nat) (graphics_family : Nat) : Nat :=
  queue_family.enum.foldl
    (fun graphics_family nf =>
      if nf.2 &&& VK_QUEUE_GRAPHICS_BIT ≠ 0 then nf.1 else graphics_family)
    graphics_family

/-- Function `pick_physical_device`. -/
def pick_physical_device (rt : Runtime) (app : Application) (stdin : List Int) : Run Stage :=
  if rt.device_count_result ≠ VK_SUCCESS then
    Run.ret { ret := -1, app := app, trace := [] }
  else if rt.device_result ≠ VK_SUCCESS then
    Run.ret { ret := -1, app := app, trace := [Ev.acquire Res.devices, Ev.release Res.devices] }
  else if rt.devices.length < 1 then
    Run.ret { ret := -1, app := app, trace := [Ev.acquire Res.devices, Ev.release Res.devices] }
  else
    match choose_device app.config.device_pick rt.devices.length stdin with
    | none => Run.hang
    | some none =>
      Run.ret { ret := -1, app := app,
                trace := [Ev.acquire Res.devices] ++ list_devices rt.devices
                  ++ [Ev.release Res.devices] }
    | some (some (pick, rounds)) =>
      let physical_device := rt.devices[pick.toNat]?
      let queue_family :=
        match physical_device with
        | some d => d.queue_family
        | none => []
      Run.ret
        { ret := 0,
          app := { app with
            config := { app.config with device_pick := pick },
            physical_device := physical_device,
            graphics_family := save_graphics_family queue_family app.graphics_family },
          trace := [Ev.acquire Res.devices] ++ list_devices rt.devices
            ++ List.replicate rounds Ev.prompt
            ++ [Ev.acquire Res.queue_family, Ev.release Res.queue_family,
                Ev.release Res.devices] }

/-! ## `create_logical_device` (lines 412-443) -/

/-- Function `create_logical_device`: one queue of family `graphics_family`; the enabled layer
names passed to `vkCreateDevice` are `app->enabled_layers`. -/
def create_logical_device (rt : Runtime) (app : Application) : Stage :=
  if rt.vkCreateDevice ≠ VK_SUCCESS then
    { ret := -1, app := app, trace := [] }
  else
    { ret := 0,
      app := { app with device := true, graphics_queue := some app.graphics_family },
      trace := [Ev.acquire Res.device] }

/-! ## `application_init` and `application_free` (lines 446-506) -/

/-- Function `application_init`: the returned pointer (`none` for `NULL`) and the events. -/
def application_init (rt : Runtime) (config : Config) (stdin : List Int) :
    Run (Option Application × List Ev) :=
  if !rt.calloc_app then Run.ret (none, [])
  else
    let w := window_init rt (Application.calloc config)
    if w.ret ≠ 0 then
      Run.ret (none, [Ev.acquire Res.app] ++ w.trace ++ [Ev.release Res.app])
    else
      match vulkan_init rt w.app with
      | Run.ub => Run.ub
      | Run.hang => Run.hang
      | Run.ret v =>
        if v.ret ≠ 0 then
          Run.ret (none, [Ev.acquire Res.app] ++ w.trace ++ v.trace
            ++ [Ev.release Res.window, Ev.release Res.glfw, Ev.release Res.app])
        else
          match pick_physical_device rt v.app stdin with
          | Run.ub => Run.ub
          | Run.hang => Run.hang
          | Run.ret p =>
            if p.ret ≠ 0 then
              Run.ret (none, [Ev.acquire Res.app] ++ w.trace ++ v.trace ++ p.trace
                ++ [Ev.release Res.vk_instance, Ev.release Res.window, Ev.release Res.glfw,
                    Ev.release Res.app])
            else
              let l := create_logical_device rt p.app
              if l.ret ≠ 0 then
                Run.ret (none, [Ev.acquire Res.app] ++ w.trace ++ v.trace ++ p.trace ++ l.trace
                  ++ [Ev.release Res.vk_instance, Ev.release Res.window, Ev.release Res.glfw,
                      Ev.release Res.app])
              else
                Run.ret (some l.app,
                  [Ev.acquire Res.app] ++ w.trace ++ v.trace ++ p.trace ++ l.trace)

/-- Function `application_free`: the events it performs. -/
def application_free (app : Option Application) : List Ev :=
  match app with
  | none => []
  | some _ =>
    [Ev.release Res.device, Ev.release Res.vk_instance, Ev.release Res.enabled_extensions,
     Ev.release Res.enabled_layers, Ev.release Res.window, Ev.release Res.glfw,
     Ev.release Res.app]

/-! ## Sample inputs -/

/-- A runtime in which every call succeeds, with the given names and devices. -/
def sample_runtime (required_extensions available_extensions available_layers : List String)
    (devices : List PhysicalDevice) : Runtime :=
  { calloc_app := true, glfwInit := true, glfwCreateWindow := true,
    glfwVulkanSupported := true, required_extensions := some required_extensions,
    extension_count_result := VK_SUCCESS, extension_result := VK_SUCCESS,
    available_extensions := available_extensions,
    layer_count_result := VK_SUCCESS, layer_result := VK_SUCCESS,
    available_layers := available_layers, vkCreateInstance := VK_SUCCESS,
    device_count_result := VK_SUCCESS, device_result := VK_SUCCESS, devices := devices,
    vkCreateDevice := VK_SUCCESS }

/-- A configuration with the given requested names and device pick. -/
def sample_config (requested_extensions requested_layers : List String) (device_pick : Int) :
    Config :=
  { requested_extensions := requested_extensions, requested_layers := requested_layers,
    device_pick := device_pick }

/-- The example of the specification: available A, B, C; required A, B; requested C, D. -/
def names_abc : Names :=
  { required := ["A", "B"], requested := ["C", "D"], available := ["A", "B", "C"] }

/-- A runtime that lists `VK_KHR_surface` twice and `VK_KHR_xcb_surface` not at all. -/
def rt_repeated : Runtime :=
  sample_runtime ["VK_KHR_surface", "VK_KHR_xcb_surface"]
    ["VK_KHR_surface", "VK_KHR_surface"] [] []

/-- A runtime that lists the one required extension twice. -/
def rt_twice : Runtime :=
  sample_runtime ["VK_KHR_surface"] ["VK_KHR_surface", "VK_KHR_surface"] [] []

/-- A runtime with distinct available names among which `VK_KHR_xcb_surface` is missing. -/
def rt_missing : Runtime :=
  sample_runtime ["VK_KHR_surface", "VK_KHR_xcb_surface"]
    ["VK_KHR_surface", "VK_EXT_debug_utils"] [] []

/-- A request for 65536 layers of one name against 65536 available entries of that name:
the number of matching pairs is `2 ^ 32`. -/
def names_wrap : Names :=
  { required := [],
    requested := List.replicate 65536 "VK_LAYER_KHRONOS_validation",
    available := List.replicate 65536 "VK_LAYER_KHRONOS_validation" }

/-- Names with repetitions on both sides that pass the required check. -/
def names_repeated : Names :=
  { required := ["A", "A"], requested := ["B", "C"], available := ["A", "B", "B"] }

/-- A runtime with one available layer, the validation layer, and one device. -/
def rt_layer : Runtime :=
  sample_runtime ["VK_KHR_surface"] ["VK_KHR_surface"] ["VK_LAYER_KHRONOS_validation"]
    [{ handle := 1, geometryShader := true, shaderFloat64 := true, queue_family := [7] }]

/-- A configuration that requests the validation layer and picks device 0. -/
def config_layer : Config := sample_config [] ["VK_LAYER_KHRONOS_validation"] 0

/-- A device whose two queue families both have the graphics bit. -/
def device_two_graphics : PhysicalDevice :=
  { handle := 1, geometryShader := true, shaderFloat64 := true, queue_family := [7, 3] }

/-- A device whose only queue family (compute and transfer) lacks the graphics bit, and
which has no geometry shader. -/
def device_no_graphics : PhysicalDevice :=
  { handle := 2, geometryShader := false, shaderFloat64 := false, queue_family := [6] }

/-- A runtime with three devices. -/
def rt_three : Runtime :=
  sample_runtime ["VK_KHR_surface"] ["VK_KHR_surface"] []
    [device_two_graphics, device_no_graphics, device_two_graphics]

/-- A runtime without any device. -/
def rt_no_device : Runtime :=
  sample_runtime ["VK_KHR_surface"] ["VK_KHR_surface"] ["VK_LAYER_KHRONOS_validation"] []

/-! ## The loops in closed form -/

theorem putAll_append (ws vs : List Ptr) (b : Option Buf) :
    putAll (ws ++ vs) b = putAll vs (putAll ws b) := by
  simp [putAll, List.foldl_append]

theorem putAll_none (ws : List Ptr) : putAll ws none = none := by
  induction ws with
  | nil => rfl
  | cons p ws ih => simpa [putAll] using ih

theorem fill_inner_eq (src : Nat → Nat → Ptr) (nn : Nat × String) (as : List (Nat × String))
    (b : Option Buf) :
    as.foldl (fun b ia => if nn.2 = ia.2 then b.bind (fun b => b.put (src nn.1 ia.1)) else b) b
      = putAll (as.filterMap fun ia => if nn.2 = ia.2 then some (src nn.1 ia.1) else none) b := by
  induction as generalizing b with
  | nil => rfl
  | cons ia as ih =>
    by_cases h : nn.2 = ia.2
    · simp only [List.foldl_cons, h, if_true, List.filterMap_cons]
      rw [← h]; rw [ih]; simp [putAll, h]
    · simp only [List.foldl_cons, h, if_false, List.filterMap_cons]
      rw [ih]

theorem fill_eq_putAll (src : Nat → Nat → Ptr) (names available : List String) (b : Option Buf) :
    fill src names available b = putAll (stores src names.enum available.enum) b := by
  unfold fill
  generalize names.enum = ns
  induction ns generalizing b with
  | nil => rfl
  | cons nn ns ih =>
    simp only [List.foldl_cons, stores, List.flatMap_cons, putAll_append]
    rw [fill_inner_eq, ih]; rfl


theorem count_inner_eq (name : String) (available : List String) (found : Nat)
    (h : found < UINT32_MOD) :
    available.foldl (fun found a => if name = a then (found + 1) % UINT32_MOD else found) found
      = (found + available.count name) % UINT32_MOD := by
  induction available generalizing found with
  | nil => simp [Nat.mod_eq_of_lt h]
  | cons a as ih =>
    by_cases ha : name = a
    · subst ha
      simp only [List.foldl_cons, if_true, List.count_cons_self]
      rw [ih _ (Nat.mod_lt _ (by decide))]
      simp only [UINT32_MOD] at *
      omega
    · simp only [List.foldl_cons, ha, if_false, List.count_cons_of_ne ha]
      exact ih _ h

theorem count_found_eq (names available : List String) (found : Nat) (h : found < UINT32_MOD) :
    count_found names available found = (found + pairs names available) % UINT32_MOD := by
  unfold count_found pairs
  induction names generalizing found with
  | nil => simp [Nat.mod_eq_of_lt h]
  | cons name names ih =>
    simp only [List.foldl_cons, List.map_cons, List.sum_cons]
    rw [count_inner_eq _ _ _ h, ih _ (Nat.mod_lt _ (by decide))]
    simp only [UINT32_MOD] at *
    omega

theorem stores_inner_length (src : Nat → Nat → Ptr) (nn : Nat × String)
    (as : List (Nat × String)) :
    (as.filterMap fun ia => if nn.2 = ia.2 then some (src nn.1 ia.1) else none).length
      = (as.map Prod.snd).count nn.2 := by
  induction as with
  | nil => rfl
  | cons ia as ih =>
    by_cases h : nn.2 = ia.2
    · simp only [List.filterMap_cons, h, if_true, List.length_cons, List.map_cons,
        List.count_cons_self]
      rw [← h, ih]
    · simp only [List.filterMap_cons, h, if_false, List.map_cons, List.count_cons_of_ne h]
      exact ih

theorem stores_length_aux (src : Nat → Nat → Ptr) (ns as : List (Nat × String)) :
    (stores src ns as).length = pairs (ns.map Prod.snd) (as.map Prod.snd) := by
  unfold stores pairs
  induction ns with
  | nil => rfl
  | cons nn ns ih =>
    simp only [List.flatMap_cons, List.length_append, List.map_cons, List.sum_cons]
    rw [stores_inner_length, ih]

theorem stores_length (src : Nat → Nat → Ptr) (names available : List String) :
    (stores src names.enum available.enum).length = pairs names available := by
  rw [stores_length_aux, List.enum_map_snd, List.enum_map_snd]


theorem putAll_cons_some (p : Ptr) (ws : List Ptr) (b : Buf) :
    putAll (p :: ws) (some b) = putAll ws (b.put p) := rfl

theorem put_room (pre : List Ptr) (k : Nat) (p : Ptr) (h : pre.length + (k + 1) < UINT32_MOD) :
    Buf.put { slots := pre.map some ++ List.replicate (k + 1) none, free := pre.length } p
      = some { slots := (pre ++ [p]).map some ++ List.replicate k none,
               free := (pre ++ [p]).length } := by
  have hlt : pre.length + 1 < UINT32_MOD := by omega
  simp only [Buf.put, List.length_append, List.length_map, List.length_replicate]
  rw [if_pos (by omega), Nat.mod_eq_of_lt hlt]
  have hset : (pre.map some ++ List.replicate (k + 1) none).set pre.length (some p)
      = (pre ++ [p]).map some ++ List.replicate k none := by
    have hl : (pre.map some).length ≤ pre.length := by simp
    rw [List.set_append_right _ _ hl]
    simp [List.replicate_succ]
  rw [hset]
  simp

theorem put_full (pre : List Ptr) (p : Ptr) :
    Buf.put { slots := pre.map some ++ List.replicate 0 none, free := pre.length } p = none := by
  simp [Buf.put]

theorem putAll_onto (ws pre : List Ptr) (k : Nat) (h : pre.length + k < UINT32_MOD) :
    putAll ws (some { slots := pre.map some ++ List.replicate k none, free := pre.length })
      = if ws.length ≤ k then
          some { slots := (pre ++ ws).map some ++ List.replicate (k - ws.length) none,
                 free := (pre ++ ws).length }
        else none := by
  induction ws generalizing pre k with
  | nil => simp [putAll]
  | cons p ws ih =>
    cases k with
    | zero =>
      rw [putAll_cons_some, put_full, putAll_none]
      simp
    | succ k =>
      rw [putAll_cons_some, put_room pre k p h, ih (pre ++ [p]) k (by simp; omega)]
      simp only [List.length_cons, Nat.add_le_add_iff_right, List.append_assoc,
        List.singleton_append, Nat.add_sub_add_right]

/-- What one negotiation block computes, in closed form. -/
theorem negotiate_eq (srcRequired srcRequested : Nat → Nat → Ptr) (m : Names) :
    negotiate srcRequired srcRequested m
      = if pairs m.required m.available % UINT32_MOD = m.required.length then
          if pairs m.required m.available + pairs m.requested m.available < UINT32_MOD then
            Negotiation.ok (pairs m.required m.available + pairs m.requested m.available)
              ((stores srcRequired m.required.enum m.available.enum
                ++ stores srcRequested m.requested.enum m.available.enum).map some)
          else Negotiation.ub
        else Negotiation.fail := by
  have hM : 0 < UINT32_MOD := by decide
  unfold negotiate
  simp only [count_found_eq _ _ 0 hM, Nat.zero_add, fill_eq_putAll, ← putAll_append]
  by_cases hreq : pairs m.required m.available % UINT32_MOD = m.required.length
  · rw [if_pos hreq, if_pos hreq]
    have hpre := putAll_onto
      (stores srcRequired m.required.enum m.available.enum
        ++ stores srcRequested m.requested.enum m.available.enum) []
      ((pairs m.required m.available % UINT32_MOD
        + pairs m.requested m.available % UINT32_MOD) % UINT32_MOD)
      (by simpa using Nat.mod_lt _ hM)
    simp only [List.map_nil, List.nil_append, List.length_nil] at hpre
    rw [hpre]
    simp only [List.length_append, stores_length]
    by_cases hlt : pairs m.required m.available + pairs m.requested m.available < UINT32_MOD
    · have e : (pairs m.required m.available % UINT32_MOD
          + pairs m.requested m.available % UINT32_MOD) % UINT32_MOD
          = pairs m.required m.available + pairs m.requested m.available := by
        simp only [UINT32_MOD] at *; omega
      rw [e, if_pos (Nat.le_refl _), if_pos hlt]
      simp
    · have e : ¬ (pairs m.required m.available + pairs m.requested m.available
          ≤ (pairs m.required m.available % UINT32_MOD
          + pairs m.requested m.available % UINT32_MOD) % UINT32_MOD) := by
        simp only [UINT32_MOD] at *; omega
      rw [if_neg e, if_neg hlt]
  · rw [if_neg hreq, if_neg hreq]


/-! ## Matching against an available list without repeated names -/

theorem count_le_one_of_nodup {available : List String} (h : available.Nodup) (name : String) :
    available.count name = if name ∈ available then 1 else 0 := by
  by_cases hm : name ∈ available
  · rw [if_pos hm]; exact List.count_eq_one_of_mem h hm
  · rw [if_neg hm]; exact List.count_eq_zero_of_not_mem hm

theorem pairs_nodup {available : List String} (h : available.Nodup) (names : List String) :
    pairs names available = (names.filter fun x => decide (x ∈ available)).length := by
  unfold pairs
  induction names with
  | nil => rfl
  | cons x xs ih =>
    rw [List.map_cons, List.sum_cons, ih, count_le_one_of_nodup h, List.filter_cons]
    by_cases hx : x ∈ available <;> simp [hx, Nat.add_comm]

theorem pairs_nodup_le {available : List String} (h : available.Nodup) (names : List String) :
    pairs names available ≤ names.length := by
  rw [pairs_nodup h]; exact List.length_filter_le _ _

theorem pairs_nodup_all {available : List String} (h : available.Nodup) (names : List String)
    (hall : ∀ x ∈ names, x ∈ available) : pairs names available = names.length := by
  rw [pairs_nodup h, List.filter_eq_self.2]
  intro x hx; simpa using hall x hx

theorem pairs_nodup_lt {available : List String} (h : available.Nodup) (names : List String)
    (hmiss : ∃ x ∈ names, x ∉ available) : pairs names available < names.length := by
  rw [pairs_nodup h, List.length_filter_lt_length_iff_exists]
  obtain ⟨x, hx, hxa⟩ := hmiss
  exact ⟨x, hx, by simpa using hxa⟩

theorem pairs_replicate (a b : Nat) (x : String) :
    pairs (List.replicate a x) (List.replicate b x) = a * b := by
  unfold pairs
  simp [List.map_replicate, List.sum_replicate, List.count_replicate_self]

theorem pairs_nil (available : List String) : pairs [] available = 0 := rfl

theorem stores_inner_nodup {β : Type} (g : Ptr → β) (src : Nat → Nat → Ptr) (nn : Nat × String)
    (as : List (Nat × String)) (b : β) (hnd : (as.map Prod.snd).Nodup)
    (hg : ∀ ia ∈ as, nn.2 = ia.2 → g (src nn.1 ia.1) = b) :
    (as.filterMap fun ia => if nn.2 = ia.2 then some (src nn.1 ia.1) else none).map g
      = if nn.2 ∈ as.map Prod.snd then [b] else [] := by
  induction as with
  | nil => rfl
  | cons ia as ih =>
    rw [List.map_cons, List.nodup_cons] at hnd
    have ih2 := ih hnd.2 (fun ia2 h2 => hg ia2 (List.mem_cons_of_mem _ h2))
    by_cases h : nn.2 = ia.2
    · have hnot : nn.2 ∉ as.map Prod.snd := by rw [h]; exact hnd.1
      rw [if_neg hnot] at ih2
      have hb := hg ia (List.mem_cons_self _ _) h
      simp only [List.filterMap_cons, h, if_true, List.map_cons, List.mem_cons, true_or]
      rw [← h, hb, ih2]
    · have hmem : (nn.2 ∈ (ia :: as).map Prod.snd) ↔ nn.2 ∈ as.map Prod.snd := by
        simp [h]
      simp only [List.filterMap_cons, h, if_false]
      rw [ih2]
      by_cases h3 : nn.2 ∈ as.map Prod.snd
      · rw [if_pos h3, if_pos (hmem.2 h3)]
      · rw [if_neg h3, if_neg (fun h4 => h3 (hmem.1 h4))]

theorem stores_map_nodup {β : Type} (g : Ptr → β) (src : Nat → Nat → Ptr)
    (ns as : List (Nat × String)) (val : Nat × String → β) (hnd : (as.map Prod.snd).Nodup)
    (hg : ∀ nn ∈ ns, ∀ ia ∈ as, nn.2 = ia.2 → g (src nn.1 ia.1) = val nn) :
    (stores src ns as).map g
      = (ns.filter fun nn => decide (nn.2 ∈ as.map Prod.snd)).map val := by
  unfold stores
  induction ns with
  | nil => rfl
  | cons nn ns ih =>
    have ih2 := ih (fun n2 h2 => hg n2 (List.mem_cons_of_mem _ h2))
    rw [List.flatMap_cons, List.map_append, ih2,
      stores_inner_nodup g src nn as (val nn) hnd (hg nn (List.mem_cons_self _ _)),
      List.filter_cons]
    by_cases h : nn.2 ∈ as.map Prod.snd <;> simp [h]

/-- With pairwise distinct available names, the strings behind the stored pointers are
the names that occur in the available list, in order. -/
theorem stores_deref_nodup (src : Nat → Nat → Ptr) (D : Ptr → Option String)
    (names available : List String) (hnd : available.Nodup)
    (hD : ∀ nn ∈ names.enum, ∀ ia ∈ available.enum, nn.2 = ia.2 → D (src nn.1 ia.1) = some nn.2) :
    (stores src names.enum available.enum).map D
      = (names.filter fun x => decide (x ∈ available)).map some := by
  have hnd2 : (available.enum.map Prod.snd).Nodup := by rw [List.enum_map_snd]; exact hnd
  rw [stores_map_nodup D src names.enum available.enum (fun nn => some nn.2) hnd2 hD]
  rw [List.enum_map_snd]
  have h1 : (names.enum.filter fun nn => decide (nn.2 ∈ available)).map (fun nn => some nn.2)
      = ((names.enum.filter ((fun x => decide (x ∈ available)) ∘ Prod.snd)).map Prod.snd).map
          some := by
    rw [List.map_map]; rfl
  rw [h1, ← List.filter_map, List.enum_map_snd]

/-- With pairwise distinct available names that contain every name, a fill loop that
stores a pointer depending on the index of the name only stores one pointer per name. -/
theorem stores_all_nodup (f : Nat → Ptr) (names available : List String) (hnd : available.Nodup)
    (hall : ∀ x ∈ names, x ∈ available) :
    stores (fun n _ => f n) names.enum available.enum = (List.range names.length).map f := by
  have hnd2 : (available.enum.map Prod.snd).Nodup := by rw [List.enum_map_snd]; exact hnd
  have h := stores_map_nodup id (fun n _ => f n) names.enum available.enum (fun nn => f nn.1)
    hnd2 (fun _ _ _ _ _ => rfl)
  rw [List.map_id] at h
  rw [h, List.enum_map_snd, List.filter_eq_self.2]
  · rw [← List.enum_map_fst, List.map_map]; rfl
  · intro nn hnn
    have := hall nn.2 (by
      have hm := List.mem_map_of_mem Prod.snd hnn
      rwa [List.enum_map_snd] at hm)
    simpa using this

/-! ## Negotiation: the claims -/

theorem negotiate_fail_of_missing (srcRequired srcRequested : Nat → Nat → Ptr) (m : Names)
    (hnd : m.available.Nodup) (hmiss : ∃ x ∈ m.required, x ∉ m.available) :
    negotiate srcRequired srcRequested m = Negotiation.fail := by
  rw [negotiate_eq, if_neg]
  have hlt := pairs_nodup_lt hnd m.required hmiss
  have hle := Nat.mod_le (pairs m.required m.available) UINT32_MOD
  omega

/-- C1, counterexample: the runtime lists `VK_KHR_surface` twice; the required
`VK_KHR_xcb_surface` is not available, yet two matches are counted for two required names,
the check passes, `vulkan_init` returns 0 and `app->enabled_extensions` is set. -/
theorem c1_counterexample :
    (∃ x ∈ ["VK_KHR_surface", "VK_KHR_xcb_surface"],
        x ∉ rt_repeated.available_extensions) ∧
      negotiate_extensions
        { required := ["VK_KHR_surface", "VK_KHR_xcb_surface"], requested := [],
          available := rt_repeated.available_extensions }
        = Negotiation.ok 2 [some (Ptr.required 0), some (Ptr.required 0)] ∧
      ∃ s, vulkan_init rt_repeated (Application.calloc (sample_config [] [] 0)) = Run.ret s ∧
        s.ret = 0 ∧
        s.app.enabled_extensions = some [some (Ptr.required 0), some (Ptr.required 0)] := by
  refine ⟨⟨"VK_KHR_xcb_surface", by decide, by decide⟩, by decide, ?_⟩
  exact ⟨_, rfl, rfl, rfl⟩

/-- C1, amended: when the available extension names are pairwise distinct and at least
one required name does not occur among them, the extension block fails, `vulkan_init`
returns -1 and `app->enabled_extensions` keeps the value it had. -/
theorem c1_missing_required_fails (rt : Runtime) (app : Application) (required : List String)
    (hreq : rt.required_extensions = some required)
    (hnd : rt.available_extensions.Nodup)
    (hmiss : ∃ x ∈ required, x ∉ rt.available_extensions) :
    negotiate_extensions
        { required := required, requested := app.config.requested_extensions,
          available := rt.available_extensions } = Negotiation.fail ∧
      ∃ s, vulkan_init rt app = Run.ret s ∧ s.ret = -1 ∧
        s.app.enabled_extensions = app.enabled_extensions := by
  have hneg : negotiate_extensions
      { required := required, requested := app.config.requested_extensions,
        available := rt.available_extensions } = Negotiation.fail :=
    negotiate_fail_of_missing _ _ _ hnd hmiss
  refine ⟨hneg, ?_⟩
  unfold vulkan_init
  rw [hreq]
  simp only [hneg]
  by_cases h1 : rt.glfwVulkanSupported <;>
    by_cases h2 : rt.extension_count_result = VK_SUCCESS <;>
      by_cases h3 : rt.extension_result = VK_SUCCESS <;> simp [h1, h2, h3]

/-- C1, witness: distinct available names, `VK_KHR_xcb_surface` missing. -/
theorem c1_missing_required_fails_witness :
    negotiate_extensions
        { required := ["VK_KHR_surface", "VK_KHR_xcb_surface"],
          requested := (Application.calloc (sample_config ["VK_EXT_debug_utils"] [] 0)).config.requested_extensions,
          available := rt_missing.available_extensions } = Negotiation.fail ∧
      ∃ s, vulkan_init rt_missing (Application.calloc (sample_config ["VK_EXT_debug_utils"] [] 0))
          = Run.ret s ∧ s.ret = -1 ∧
        s.app.enabled_extensions
          = (Application.calloc (sample_config ["VK_EXT_debug_utils"] [] 0)).enabled_extensions :=
  c1_missing_required_fails rt_missing (Application.calloc (sample_config ["VK_EXT_debug_utils"] [] 0))
    ["VK_KHR_surface", "VK_KHR_xcb_surface"] rfl (by decide)
    ⟨"VK_KHR_xcb_surface", by decide, by decide⟩

/-- C2, counterexample: the one required extension is available, but the runtime lists it
twice; two matches are counted for one required name and the block fails. -/
theorem c2_counterexample :
    (∀ x ∈ ["VK_KHR_surface"], x ∈ rt_twice.available_extensions) ∧
      negotiate_extensions
        { required := ["VK_KHR_surface"], requested := [],
          available := rt_twice.available_extensions } = Negotiation.fail ∧
      ∃ s, vulkan_init rt_twice (Application.calloc (sample_config [] [] 0)) = Run.ret s ∧
        s.ret = -1 ∧ s.app.enabled_extensions = none := by
  refine ⟨by decide, by decide, ?_⟩
  exact ⟨_, rfl, rfl, rfl⟩

/-- C2, amended: when the available extension names are pairwise distinct, every
required name occurs among them and `required_count + requested_count` is below `2 ^ 32`,
the extension block succeeds for every requested list, and the first `required_count`
entries of the enabled array are the pointers `required_extensions[0]`,
`required_extensions[1]`, ... in this order (so the strings behind them are the required
names in their original order). -/
theorem c2_required_first (m : Names) (hnd : m.available.Nodup)
    (hall : ∀ x ∈ m.required, x ∈ m.available)
    (hsize : m.required.length + m.requested.length < UINT32_MOD) :
    ∃ count enabled, negotiate_extensions m = Negotiation.ok count enabled ∧
      enabled.take m.required.length
        = (List.range m.required.length).map (fun n => some (Ptr.required n)) ∧
      (enabled.take m.required.length).map (fun e => e.bind m.deref)
        = m.required.map some := by
  have h1 := pairs_nodup_all hnd m.required hall
  have h2 := pairs_nodup_le hnd m.requested
  have hst := stores_all_nodup Ptr.required m.required m.available hnd hall
  unfold negotiate_extensions
  rw [negotiate_eq, h1, if_pos (Nat.mod_eq_of_lt (by omega)), if_pos (by omega), hst]
  refine ⟨_, _, rfl, ?_, ?_⟩
  · rw [List.map_append, List.take_left' (by simp), List.map_map]; rfl
  · rw [List.map_append, List.take_left' (by simp), List.map_map, List.map_map]
    apply List.ext_getElem
    · simp
    · intro n hn1 hn2
      simp [Names.deref]

/-- C2, witness: the example of the specification. -/
theorem c2_required_first_witness :
    ∃ count enabled, negotiate_extensions names_abc = Negotiation.ok count enabled ∧
      enabled.take names_abc.required.length
        = (List.range names_abc.required.length).map (fun n => some (Ptr.required n)) ∧
      (enabled.take names_abc.required.length).map (fun e => e.bind names_abc.deref)
        = names_abc.required.map some :=
  c2_required_first names_abc (by decide) (by decide) (by decide)

theorem negotiate_ok_nodup (srcRequired srcRequested : Nat → Nat → Ptr) (m : Names)
    (count : Nat) (enabled : List (Option Ptr)) (hnd : m.available.Nodup)
    (h1 : ∀ nn ∈ m.required.enum, ∀ ia ∈ m.available.enum, nn.2 = ia.2 →
      m.deref (srcRequired nn.1 ia.1) = some nn.2)
    (h2 : ∀ nn ∈ m.requested.enum, ∀ ia ∈ m.available.enum, nn.2 = ia.2 →
      m.deref (srcRequested nn.1 ia.1) = some nn.2)
    (hok : negotiate srcRequired srcRequested m = Negotiation.ok count enabled) :
    enabled.map (fun e => e.bind m.deref)
        = ((m.required.filter fun x => decide (x ∈ m.available))
            ++ (m.requested.filter fun x => decide (x ∈ m.available))).map some ∧
      enabled.length = count := by
  rw [negotiate_eq] at hok
  split at hok
  · split at hok
    · injection hok with hc he
      subst hc he
      constructor
      · rw [List.map_map, List.map_append, List.map_append]
        have e1 := stores_deref_nodup srcRequired m.deref m.required m.available hnd h1
        have e2 := stores_deref_nodup srcRequested m.deref m.requested m.available hnd h2
        have hcomp : ((fun e : Option Ptr => e.bind m.deref) ∘ some) = m.deref := rfl
        rw [hcomp, e1, e2]
      · simp [stores_length]
    · cases hok
  · cases hok

/-- C3: for pairwise distinct available names, whenever a negotiation block (extensions
or layers) succeeds, the strings behind the entries of the enabled array are the required
names that are available followed by the requested names that are available, each in
input order, and the array has `enabled_count` entries. In particular available A, B, C
with required A, B and requested C, D gives A, B, C without failure. -/
theorem c3_enabled_is_filter (m : Names) (count : Nat) (enabled : List (Option Ptr))
    (hnd : m.available.Nodup)
    (hok : negotiate_extensions m = Negotiation.ok count enabled
      ∨ negotiate_layers m = Negotiation.ok count enabled) :
    (enabled.map (fun e => e.bind m.deref)
        = ((m.required.filter fun x => decide (x ∈ m.available))
            ++ (m.requested.filter fun x => decide (x ∈ m.available))).map some ∧
      enabled.length = count) ∧
    (negotiate_extensions names_abc
        = Negotiation.ok 3 [some (Ptr.required 0), some (Ptr.required 1), some (Ptr.requested 0)] ∧
      [some (Ptr.required 0), some (Ptr.required 1), some (Ptr.requested 0)].map
          (fun e => e.bind names_abc.deref) = [some "A", some "B", some "C"]) := by
  refine ⟨?_, by decide, by decide⟩
  rcases hok with hok | hok
  · refine negotiate_ok_nodup _ _ m count enabled hnd ?_ ?_ hok
    · intro nn hnn ia _ _
      exact List.mem_enum_iff_getElem?.1 hnn
    · intro nn hnn ia _ _
      exact List.mem_enum_iff_getElem?.1 hnn
  · refine negotiate_ok_nodup _ _ m count enabled hnd ?_ ?_ hok
    · intro nn _ ia hia h
      rw [h]; exact List.mem_enum_iff_getElem?.1 hia
    · intro nn _ ia hia h
      rw [h]; exact List.mem_enum_iff_getElem?.1 hia

/-- C3, witness: the example of the specification. -/
theorem c3_enabled_is_filter_witness :
    ([some (Ptr.required 0), some (Ptr.required 1), some (Ptr.requested 0)].map
          (fun e => e.bind names_abc.deref)
        = ((names_abc.required.filter fun x => decide (x ∈ names_abc.available))
            ++ (names_abc.requested.filter fun x => decide (x ∈ names_abc.available))).map some ∧
      [some (Ptr.required 0), some (Ptr.required 1), some (Ptr.requested 0)].length = 3) ∧
    (negotiate_extensions names_abc
        = Negotiation.ok 3 [some (Ptr.required 0), some (Ptr.required 1), some (Ptr.requested 0)] ∧
      [some (Ptr.required 0), some (Ptr.required 1), some (Ptr.requested 0)].map
          (fun e => e.bind names_abc.deref) = [some "A", some "B", some "C"]) :=
  c3_enabled_is_filter names_abc 3
    [some (Ptr.required 0), some (Ptr.required 1), some (Ptr.requested 0)]
    (by decide) (Or.inl (by decide))

theorem negotiate_fills (srcRequired srcRequested : Nat → Nat → Ptr) (m : Names)
    (hcheck : count_found m.required m.available 0 = m.required.length)
    (hsize : pairs m.required m.available + pairs m.requested m.available < UINT32_MOD) :
    ∃ count enabled, negotiate srcRequired srcRequested m = Negotiation.ok count enabled ∧
      count = (stores srcRequired m.required.enum m.available.enum).length
        + (stores srcRequested m.requested.enum m.available.enum).length ∧
      enabled = (stores srcRequired m.required.enum m.available.enum
        ++ stores srcRequested m.requested.enum m.available.enum).map some ∧
      enabled.length = count ∧ ∀ e ∈ enabled, e ≠ none := by
  rw [count_found_eq _ _ 0 (by decide), Nat.zero_add] at hcheck
  rw [negotiate_eq, if_pos hcheck, if_pos hsize]
  refine ⟨_, _, rfl, ?_, rfl, ?_, ?_⟩
  · simp [stores_length]
  · simp [stores_length]
  · intro e he
    rw [List.mem_map] at he
    obtain ⟨p, _, hp⟩ := he
    rw [← hp]; exact Option.some_ne_none p

/-- C10, counterexample: 65536 requested layers of one name against 65536 available
entries of that name. The required check passes (no layer is required), the `uint32_t`
counter `requested_layers_found` wraps to 0 after `2 ^ 32` increments, the array is
allocated with 0 slots and the first store of the fill loop is outside it. -/
theorem c10_counterexample :
    count_found names_wrap.required names_wrap.available 0 = names_wrap.required.length ∧
      (count_found names_wrap.required names_wrap.available 0
        + count_found names_wrap.requested names_wrap.available 0) % UINT32_MOD = 0 ∧
      (stores (fun _ i => Ptr.available i) names_wrap.requested.enum
        names_wrap.available.enum).length = 4294967296 ∧
      negotiate_layers names_wrap = Negotiation.ub := by
  have hp : pairs names_wrap.requested names_wrap.available = 65536 * 65536 :=
    pairs_replicate 65536 65536 _
  have h0 : pairs names_wrap.required names_wrap.available = 0 := rfl
  refine ⟨rfl, ?_, ?_, ?_⟩
  · rw [count_found_eq _ _ 0 (by decide), count_found_eq _ _ 0 (by decide), hp, h0]
    decide
  · rw [stores_length, hp]
  · unfold negotiate_layers
    rw [negotiate_eq, h0, hp, if_pos (by decide), if_neg (by decide)]

/-- C10, amended: for every required, requested and available list (repeated names
included) on which the required check passes and whose number of matching pairs
(name, available entry) is below `2 ^ 32`, both blocks run to their end, the number of
stores of the fill loops equals the allocated length `required_found + requested_found`,
no store is outside the array and every slot holds a stored pointer (none is `NULL`). -/
theorem c10_fill_matches_allocation (m : Names)
    (hcheck : count_found m.required m.available 0 = m.required.length)
    (hsize : pairs m.required m.available + pairs m.requested m.available < UINT32_MOD) :
    (∃ count enabled, negotiate_extensions m = Negotiation.ok count enabled ∧
      count = (count_found m.required m.available 0
        + count_found m.requested m.available 0) % UINT32_MOD ∧
      count = (stores (fun n _ => Ptr.required n) m.required.enum m.available.enum).length
        + (stores (fun n _ => Ptr.requested n) m.requested.enum m.available.enum).length ∧
      enabled = (stores (fun n _ => Ptr.required n) m.required.enum m.available.enum
        ++ stores (fun n _ => Ptr.requested n) m.requested.enum m.available.enum).map some ∧
      enabled.length = count ∧ ∀ e ∈ enabled, e ≠ none) ∧
    (∃ count enabled, negotiate_layers m = Negotiation.ok count enabled ∧
      count = (count_found m.required m.available 0
        + count_found m.requested m.available 0) % UINT32_MOD ∧
      count = (stores (fun _ i => Ptr.available i) m.required.enum m.available.enum).length
        + (stores (fun _ i => Ptr.available i) m.requested.enum m.available.enum).length ∧
      enabled = (stores (fun _ i => Ptr.available i) m.required.enum m.available.enum
        ++ stores (fun _ i => Ptr.available i) m.requested.enum m.available.enum).map some ∧
      enabled.length = count ∧ ∀ e ∈ enabled, e ≠ none) := by
  have hcount : (count_found m.required m.available 0
      + count_found m.requested m.available 0) % UINT32_MOD
      = pairs m.required m.available + pairs m.requested m.available := by
    rw [count_found_eq _ _ 0 (by decide), count_found_eq _ _ 0 (by decide)]
    simp only [UINT32_MOD] at *
    omega
  constructor
  · obtain ⟨count, enabled, h1, h2, h3, h4, h5⟩ :=
      negotiate_fills (fun n _ => Ptr.required n) (fun n _ => Ptr.requested n) m hcheck hsize
    refine ⟨count, enabled, h1, ?_, h2, h3, h4, h5⟩
    rw [hcount, h2, stores_length, stores_length]
  · obtain ⟨count, enabled, h1, h2, h3, h4, h5⟩ :=
      negotiate_fills (fun _ i => Ptr.available i) (fun _ i => Ptr.available i) m hcheck hsize
    refine ⟨count, enabled, h1, ?_, h2, h3, h4, h5⟩
    rw [hcount, h2, stores_length, stores_length]

/-- C10, witness: repeated names in the required list and in the available list. -/
theorem c10_fill_matches_allocation_witness :
    (∃ count enabled, negotiate_extensions names_repeated = Negotiation.ok count enabled ∧
      count = (count_found names_repeated.required names_repeated.available 0
        + count_found names_repeated.requested names_repeated.available 0) % UINT32_MOD ∧
      count = (stores (fun n _ => Ptr.required n) names_repeated.required.enum
          names_repeated.available.enum).length
        + (stores (fun n _ => Ptr.requested n) names_repeated.requested.enum
          names_repeated.available.enum).length ∧
      enabled = (stores (fun n _ => Ptr.required n) names_repeated.required.enum
          names_repeated.available.enum
        ++ stores (fun n _ => Ptr.requested n) names_repeated.requested.enum
          names_repeated.available.enum).map some ∧
      enabled.length = count ∧ ∀ e ∈ enabled, e ≠ none) ∧
    (∃ count enabled, negotiate_layers names_repeated = Negotiation.ok count enabled ∧
      count = (count_found names_repeated.required names_repeated.available 0
        + count_found names_repeated.requested names_repeated.available 0) % UINT32_MOD ∧
      count = (stores (fun _ i => Ptr.available i) names_repeated.required.enum
          names_repeated.available.enum).length
        + (stores (fun _ i => Ptr.available i) names_repeated.requested.enum
          names_repeated.available.enum).length ∧
      enabled = (stores (fun _ i => Ptr.available i) names_repeated.required.enum
          names_repeated.available.enum
        ++ stores (fun _ i => Ptr.available i) names_repeated.requested.enum
          names_repeated.available.enum).map some ∧
      enabled.length = count ∧ ∀ e ∈ enabled, e ≠ none) :=
  c10_fill_matches_allocation names_repeated (by decide) (by decide)

/-! ## Provenance of the stored pointers -/

theorem mem_stores {src : Nat → Nat → Ptr} {ns as : List (Nat × String)} {p : Ptr}
    (h : p ∈ stores src ns as) : ∃ n i, p = src n i := by
  unfold stores at h
  rw [List.mem_flatMap] at h
  obtain ⟨nn, _, hp⟩ := h
  rw [List.mem_filterMap] at hp
  obtain ⟨ia, _, hia⟩ := hp
  split at hia
  · exact ⟨nn.1, ia.1, (Option.some.inj hia).symm⟩
  · cases hia

/-- Every entry of the enabled extension array points into the required or the
requested list. -/
theorem negotiate_extensions_provenance (m : Names) (count : Nat)
    (enabled : List (Option Ptr)) (hok : negotiate_extensions m = Negotiation.ok count enabled) :
    ∀ e ∈ enabled, ∃ n, e = some (Ptr.required n) ∨ e = some (Ptr.requested n) := by
  unfold negotiate_extensions at hok
  rw [negotiate_eq] at hok
  split at hok
  · split at hok
    · injection hok with _ he
      subst he
      intro e hmem
      rw [List.mem_map] at hmem
      obtain ⟨p, hp, rfl⟩ := hmem
      rcases List.mem_append.1 hp with h | h
      · obtain ⟨n, _, hn⟩ := mem_stores h
        exact ⟨n, Or.inl (by rw [hn])⟩
      · obtain ⟨n, _, hn⟩ := mem_stores h
        exact ⟨n, Or.inr (by rw [hn])⟩
    · cases hok
  · cases hok

/-- Every entry of the enabled layer array points into the available buffer. -/
theorem negotiate_layers_provenance (m : Names) (count : Nat)
    (enabled : List (Option Ptr)) (hok : negotiate_layers m = Negotiation.ok count enabled) :
    ∀ e ∈ enabled, ∃ i, e = some (Ptr.available i) := by
  unfold negotiate_layers at hok
  rw [negotiate_eq] at hok
  split at hok
  · split at hok
    · injection hok with _ he
      subst he
      intro e hmem
      rw [List.mem_map] at hmem
      obtain ⟨p, hp, rfl⟩ := hmem
      rcases List.mem_append.1 hp with h | h
      · obtain ⟨_, i, hi⟩ := mem_stores h
        exact ⟨i, by rw [hi]⟩
      · obtain ⟨_, i, hi⟩ := mem_stores h
        exact ⟨i, by rw [hi]⟩
    · cases hok
  · cases hok

/-- C8, at the failing input (the validation layer requested and available):
`vulkan_init` returns 0, the one entry of `app->enabled_layers` is
`available_layers[0].layerName`, a pointer into the available buffer, and that buffer has
been released when `vulkan_init` returns, while `create_logical_device` passes
`app->enabled_layers` on. The extension entry points into the required list. -/
theorem c8_layer_entry_points_into_available :
    ∃ s, vulkan_init rt_layer (window_init rt_layer (Application.calloc config_layer)).app
        = Run.ret s ∧ s.ret = 0 ∧
      s.app.enabled_extensions = some [some (Ptr.required 0)] ∧
      s.app.enabled_layers = some [some (Ptr.available 0)] ∧
      Ev.release Res.available_layers ∈ s.trace ∧
      Res.available_layers ∉ live s.trace ∧
      ∃ a trace, application_init rt_layer config_layer [] = Run.ret (some a, trace) ∧
        a.enabled_layers = some [some (Ptr.available 0)] := by
  refine ⟨_, rfl, rfl, rfl, rfl, by decide, by decide, _, _, rfl, rfl⟩

/-! ## Device selection -/

theorem pick_valid_iff (device_pick : Int) (device_count : Nat)
    (hhi : device_pick < 2 ^ 31) :
    pick_valid device_pick device_count = true
      ↔ 0 ≤ device_pick ∧ device_pick < device_count := by
  unfold pick_valid toU32
  simp only [Bool.and_eq_true, decide_eq_true_eq]
  constructor
  · rintro ⟨h1, h2⟩
    refine ⟨h2, ?_⟩
    have : device_pick % (2 ^ 32 : Int) = device_pick := Int.emod_eq_of_lt h2 (by omega)
    rw [this] at h1
    omega
  · rintro ⟨h1, h2⟩
    refine ⟨?_, h1⟩
    have : device_pick % (2 ^ 32 : Int) = device_pick := Int.emod_eq_of_lt h1 (by omega)
    rw [this]
    omega

theorem save_graphics_family_append (xs : List Nat) (x g : Nat) :
    save_graphics_family (xs ++ [x]) g
      = if x &&& VK_QUEUE_GRAPHICS_BIT ≠ 0 then xs.length else save_graphics_family xs g := by
  unfold save_graphics_family
  rw [List.enum_append, List.foldl_append]
  rfl

theorem save_graphics_family_none (xs : List Nat) (g : Nat)
    (h : ∀ f ∈ xs, f &&& VK_QUEUE_GRAPHICS_BIT = 0) : save_graphics_family xs g = g := by
  induction xs using List.reverseRecOn with
  | nil => rfl
  | append_singleton xs x ih =>
    rw [save_graphics_family_append, if_neg (by simp [h x (by simp)])]
    exact ih (fun f hf => h f (by simp [hf]))

theorem save_graphics_family_last (xs : List Nat) (g : Nat)
    (h : ∃ f ∈ xs, f &&& VK_QUEUE_GRAPHICS_BIT ≠ 0) :
    (∃ f, xs[save_graphics_family xs g]? = some f ∧ f &&& VK_QUEUE_GRAPHICS_BIT ≠ 0) ∧
      ∀ j f, save_graphics_family xs g < j → xs[j]? = some f →
        f &&& VK_QUEUE_GRAPHICS_BIT = 0 := by
  induction xs using List.reverseRecOn with
  | nil => obtain ⟨f, hf, _⟩ := h; cases hf
  | append_singleton xs x ih =>
    rw [save_graphics_family_append]
    by_cases hx : x &&& VK_QUEUE_GRAPHICS_BIT ≠ 0
    · rw [if_pos hx]
      constructor
      · exact ⟨x, by simp, hx⟩
      · intro j f hj hjf
        have hlen : j < (xs ++ [x]).length := by
          rcases Nat.lt_or_ge j (xs ++ [x]).length with h1 | h1
          · exact h1
          · rw [List.getElem?_eq_none h1] at hjf; cases hjf
        simp at hlen
        omega
    · rw [if_neg hx]
      have hex : ∃ f ∈ xs, f &&& VK_QUEUE_GRAPHICS_BIT ≠ 0 := by
        obtain ⟨f, hf, hfb⟩ := h
        rcases List.mem_append.1 hf with h1 | h1
        · exact ⟨f, h1, hfb⟩
        · simp at h1; subst h1; exact absurd hfb hx
      obtain ⟨⟨f, hf, hfb⟩, hafter⟩ := ih hex
      have hk : save_graphics_family xs g < xs.length := by
        rcases Nat.lt_or_ge (save_graphics_family xs g) xs.length with h1 | h1
        · exact h1
        · rw [List.getElem?_eq_none h1] at hf; cases hf
      constructor
      · exact ⟨f, by rw [List.getElem?_append_left hk]; exact hf, hfb⟩
      · intro j f2 hj hjf
        rcases Nat.lt_or_ge j xs.length with h1 | h1
        · rw [List.getElem?_append_left h1] at hjf
          exact hafter j f2 hj hjf
        · rw [List.getElem?_append_right h1] at hjf
          have hj0 : j - xs.length = 0 := by
            rcases Nat.eq_zero_or_pos (j - xs.length) with h2 | h2
            · exact h2
            · rw [List.getElem?_eq_none (by simp only [List.length_singleton]; omega)] at hjf
              cases hjf
          rw [hj0] at hjf
          simp at hjf
          subst hjf
          simpa using hx

theorem list_devices_no_prompt (devices : List PhysicalDevice) :
    Ev.prompt ∉ list_devices devices := by
  unfold list_devices
  rw [List.mem_flatMap]
  rintro ⟨d, _, hd⟩
  split at hd <;> simp at hd

/-- The successful return of `pick_physical_device`, determined by the device choice. -/
theorem pick_physical_device_of_choice (rt : Runtime) (app : Application) (stdin : List Int)
    (pick : Int) (rounds : Nat)
    (h1 : rt.device_count_result = VK_SUCCESS) (h2 : rt.device_result = VK_SUCCESS)
    (h3 : rt.devices ≠ [])
    (hc : choose_device app.config.device_pick rt.devices.length stdin
      = some (some (pick, rounds))) :
    ∃ s, pick_physical_device rt app stdin = Run.ret s ∧ s.ret = 0 ∧
      s.app.physical_device = rt.devices[pick.toNat]? ∧
      s.app.config.device_pick = pick ∧
      s.app.graphics_family
        = save_graphics_family
            (match rt.devices[pick.toNat]? with
              | some d => d.queue_family
              | none => [])
            app.graphics_family ∧
      s.trace.count Ev.prompt = rounds := by
  have hlen : ¬ rt.devices.length < 1 := by
    cases hd : rt.devices with
    | nil => exact absurd hd h3
    | cons d ds => simp
  unfold pick_physical_device
  rw [if_neg (by simp [h1]), if_neg (by simp [h2]), if_neg hlen, hc]
  refine ⟨_, rfl, rfl, rfl, rfl, rfl, ?_⟩
  have hl := List.count_eq_zero_of_not_mem (list_devices_no_prompt rt.devices)
  simp only [List.count_append, hl, List.count_replicate_self]
  have e1 : List.count Ev.prompt [Ev.acquire Res.devices] = 0 := by decide
  have e2 : List.count Ev.prompt
      [Ev.acquire Res.queue_family, Ev.release Res.queue_family, Ev.release Res.devices] = 0 := by
    decide
  rw [e1, e2]
  omega

/-- A successful return of `pick_physical_device` comes from a device choice. -/
theorem pick_physical_device_ok (rt : Runtime) (app : Application) (stdin : List Int)
    (s : Stage) (h : pick_physical_device rt app stdin = Run.ret s) (h0 : s.ret = 0) :
    ∃ pick rounds,
      choose_device app.config.device_pick rt.devices.length stdin = some (some (pick, rounds)) ∧
      rt.device_count_result = VK_SUCCESS ∧ rt.device_result = VK_SUCCESS ∧
      rt.devices ≠ [] := by
  unfold pick_physical_device at h
  split at h
  · cases h; cases h0
  · split at h
    · cases h; cases h0
    · split at h
      · cases h; cases h0
      · rename_i h1 h2 h3
        split at h
        · cases h
        · cases h; cases h0
        · rename_i pick rounds hc
          refine ⟨pick, rounds, hc, by simpa using h1, by simpa using h2, ?_⟩
          intro hnil
          rw [hnil] at h3
          simp at h3

theorem vulkan_init_keeps (rt : Runtime) (app : Application) (v : Stage)
    (h : vulkan_init rt app = Run.ret v) :
    v.app.graphics_family = app.graphics_family ∧ v.app.config = app.config := by
  unfold vulkan_init at h
  repeat' split at h
  all_goals first | (cases h; exact ⟨rfl, rfl⟩) | cases h

theorem window_init_keeps (rt : Runtime) (app : Application) :
    (window_init rt app).app.graphics_family = app.graphics_family ∧
      (window_init rt app).app.config = app.config := by
  unfold window_init
  split
  · exact ⟨rfl, rfl⟩
  · split <;> exact ⟨rfl, rfl⟩

/-- C4, counterexample: the picked device has two queue families, both with the graphics
bit; `graphics_family` is 1, not the first index 0. -/
theorem c4_counterexample :
    ∃ s, pick_physical_device rt_three (Application.calloc (sample_config [] [] 0)) []
        = Run.ret s ∧ s.ret = 0 ∧
      s.app.physical_device = some device_two_graphics ∧
      (∃ f, device_two_graphics.queue_family[0]? = some f ∧ f &&& VK_QUEUE_GRAPHICS_BIT ≠ 0) ∧
      s.app.graphics_family = 1 := by
  refine ⟨_, rfl, rfl, rfl, ⟨7, rfl, by decide⟩, rfl⟩

/-- C4, amended: whenever `pick_physical_device` succeeds and the selected device has at
least one queue family with the graphics bit, `graphics_family` is the last (highest)
family index that has the graphics bit. -/
theorem c4_last_graphics_family (rt : Runtime) (app : Application) (stdin : List Int)
    (s : Stage) (d : PhysicalDevice)
    (h : pick_physical_device rt app stdin = Run.ret s) (h0 : s.ret = 0)
    (hd : s.app.physical_device = some d)
    (hg : ∃ f ∈ d.queue_family, f &&& VK_QUEUE_GRAPHICS_BIT ≠ 0) :
    (∃ f, d.queue_family[s.app.graphics_family]? = some f ∧
        f &&& VK_QUEUE_GRAPHICS_BIT ≠ 0) ∧
      ∀ j f, s.app.graphics_family < j → d.queue_family[j]? = some f →
        f &&& VK_QUEUE_GRAPHICS_BIT = 0 := by
  obtain ⟨pick, rounds, hc, h1, h2, h3⟩ := pick_physical_device_ok rt app stdin s h h0
  obtain ⟨s2, hs2, _, hp, _, hgf, _⟩ :=
    pick_physical_device_of_choice rt app stdin pick rounds h1 h2 h3 hc
  rw [h] at hs2
  injection hs2 with hs2
  subst hs2
  rw [hd] at hp
  rw [← hp] at hgf
  rw [hgf]
  exact save_graphics_family_last d.queue_family app.graphics_family hg

/-- C4, witness: the second of the three devices is picked; it has the graphics bit on
both families. -/
theorem c4_last_graphics_family_witness :
    (∃ f, device_two_graphics.queue_family[1]? = some f ∧
        f &&& VK_QUEUE_GRAPHICS_BIT ≠ 0) ∧
      ∀ j f, 1 < j → device_two_graphics.queue_family[j]? = some f →
        f &&& VK_QUEUE_GRAPHICS_BIT = 0 :=
  c4_last_graphics_family rt_three (Application.calloc (sample_config [] [] 2)) []
    { ret := 0,
      app := { Application.calloc (sample_config [] [] 2) with
        physical_device := some device_two_graphics, graphics_family := 1 },
      trace := [Ev.acquire Res.devices] ++ list_devices rt_three.devices ++ []
        ++ [Ev.acquire Res.queue_family, Ev.release Res.queue_family, Ev.release Res.devices] }
    device_two_graphics rfl rfl rfl ⟨7, by decide, by decide⟩

/-- C5: with successful enumeration of a non-empty device list and an explicit pick
(not -1, a 32-bit signed value), `pick_physical_device` returns, and it returns 0 exactly
when `0 <= pick < device_count`, whatever the feature flags and queue families of the
devices are; otherwise it returns -1 and leaves the application as it was. On success the
selected device is `devices[pick]`, `device_pick` is unchanged and no prompt was shown.
Three devices with pick 5 fail. -/
theorem c5_explicit_pick (rt : Runtime) (app : Application) (stdin : List Int)
    (h1 : rt.device_count_result = VK_SUCCESS) (h2 : rt.device_result = VK_SUCCESS)
    (h3 : rt.devices ≠ [])
    (hpick : app.config.device_pick ≠ -1)
    (hlo : -2 ^ 31 ≤ app.config.device_pick) (hhi : app.config.device_pick < 2 ^ 31) :
    (∃ s, pick_physical_device rt app stdin = Run.ret s ∧
      (s.ret = 0 ↔ 0 ≤ app.config.device_pick ∧ app.config.device_pick < rt.devices.length) ∧
      (s.ret ≠ 0 → s.ret = -1 ∧ s.app = app) ∧
      (s.ret = 0 →
        (∃ d, rt.devices[app.config.device_pick.toNat]? = some d ∧
          s.app.physical_device = some d) ∧
        s.app.config.device_pick = app.config.device_pick ∧
        Ev.prompt ∉ s.trace)) ∧
    (∃ s, pick_physical_device rt_three (Application.calloc (sample_config [] [] 5)) stdin
        = Run.ret s ∧ s.ret = -1) := by
  constructor
  · by_cases hv : pick_valid app.config.device_pick rt.devices.length = true
    · have hc : choose_device app.config.device_pick rt.devices.length stdin
          = some (some (app.config.device_pick, 0)) := by
        unfold choose_device
        rw [if_pos hpick, if_pos hv]
      obtain ⟨s, hs, hret, hp, hcfg, _, hcount⟩ :=
        pick_physical_device_of_choice rt app stdin _ 0 h1 h2 h3 hc
      have hrange := (pick_valid_iff _ _ hhi).1 hv
      refine ⟨s, hs, ⟨fun _ => hrange, fun _ => hret⟩, fun hne => absurd hret hne, fun _ => ?_⟩
      have hlt : app.config.device_pick.toNat < rt.devices.length := by omega
      refine ⟨⟨rt.devices[app.config.device_pick.toNat], ?_, ?_⟩, hcfg, ?_⟩
      · exact List.getElem?_eq_getElem hlt
      · rw [hp]; exact List.getElem?_eq_getElem hlt
      · exact List.count_eq_zero.1 hcount
    · have hc : choose_device app.config.device_pick rt.devices.length stdin = some none := by
        unfold choose_device
        rw [if_pos hpick, if_neg hv]
      have hlen : ¬ rt.devices.length < 1 := by
        cases hd : rt.devices with
        | nil => exact absurd hd h3
        | cons d ds => simp
      have hrange : ¬ (0 ≤ app.config.device_pick ∧
          app.config.device_pick < rt.devices.length) :=
        fun h => hv ((pick_valid_iff _ _ hhi).2 h)
      unfold pick_physical_device
      rw [if_neg (by simp [h1]), if_neg (by simp [h2]), if_neg hlen, hc]
      refine ⟨_, rfl, ⟨fun h => ?_, fun h => absurd h hrange⟩, fun _ => ⟨rfl, rfl⟩, fun h => ?_⟩
      · have hm : (-1 : Int) = 0 := h
        exact absurd hm (by decide)
      · have hm : (-1 : Int) = 0 := h
        exact absurd hm (by decide)
  · exact ⟨_, rfl, rfl⟩

/-- C5, witness: three devices, the second without geometry shader and without a graphics
queue family, pick 1. -/
theorem c5_explicit_pick_witness :
    (∃ s, pick_physical_device rt_three (Application.calloc (sample_config [] [] 1)) []
        = Run.ret s ∧
      (s.ret = 0 ↔ 0 ≤ (Application.calloc (sample_config [] [] 1)).config.device_pick ∧
        (Application.calloc (sample_config [] [] 1)).config.device_pick
          < rt_three.devices.length) ∧
      (s.ret ≠ 0 → s.ret = -1 ∧ s.app = Application.calloc (sample_config [] [] 1)) ∧
      (s.ret = 0 →
        (∃ d, rt_three.devices[
            (Application.calloc (sample_config [] [] 1)).config.device_pick.toNat]? = some d ∧
          s.app.physical_device = some d) ∧
        s.app.config.device_pick
          = (Application.calloc (sample_config [] [] 1)).config.device_pick ∧
        Ev.prompt ∉ s.trace)) ∧
    (∃ s, pick_physical_device rt_three (Application.calloc (sample_config [] [] 5)) []
        = Run.ret s ∧ s.ret = -1) :=
  c5_explicit_pick rt_three (Application.calloc (sample_config [] [] 1)) [] rfl rfl
    (by decide) (by decide) (by decide) (by decide)

/-- C6: when the enumeration gives zero devices, `pick_physical_device` returns -1 for
every `device_pick` (also -1) and every input, shows no prompt and leaves the
application, in particular `physical_device`, as it was. -/
theorem c6_no_device (rt : Runtime) (app : Application) (stdin : List Int)
    (h : rt.devices = []) :
    ∃ s, pick_physical_device rt app stdin = Run.ret s ∧ s.ret = -1 ∧ s.app = app ∧
      Ev.prompt ∉ s.trace := by
  unfold pick_physical_device
  rw [h]
  by_cases h1 : rt.device_count_result = VK_SUCCESS <;>
    by_cases h2 : rt.device_result = VK_SUCCESS <;> simp [h1, h2]

/-- C6, witness: no device, interactive selection, a valid-looking answer waiting on the
input. -/
theorem c6_no_device_witness :
    ∃ s, pick_physical_device rt_no_device (Application.calloc (sample_config [] [] (-1))) [0]
        = Run.ret s ∧ s.ret = -1 ∧ s.app = Application.calloc (sample_config [] [] (-1)) ∧
      Ev.prompt ∉ s.trace :=
  c6_no_device rt_no_device (Application.calloc (sample_config [] [] (-1))) [0] rfl

/-- C7: in `application_init`, `pick_physical_device` receives the application left by
`window_init` and `vulkan_init` on the freshly `calloc`ed structure. Whenever the device
choice (explicit or prompted) yields a device none of whose queue families has the
graphics bit, `pick_physical_device` returns 0 with that device selected and
`graphics_family` equal to 0, the value of the zeroed structure. -/
theorem c7_no_graphics_family (rt : Runtime) (config : Config) (stdin : List Int) (v : Stage)
    (pick : Int) (rounds : Nat) (d : PhysicalDevice)
    (hv : vulkan_init rt (window_init rt (Application.calloc config)).app = Run.ret v)
    (h1 : rt.device_count_result = VK_SUCCESS) (h2 : rt.device_result = VK_SUCCESS)
    (hc : choose_device v.app.config.device_pick rt.devices.length stdin
      = some (some (pick, rounds)))
    (hd : rt.devices[pick.toNat]? = some d)
    (hng : ∀ f ∈ d.queue_family, f &&& VK_QUEUE_GRAPHICS_BIT = 0) :
    ∃ s, pick_physical_device rt v.app stdin = Run.ret s ∧ s.ret = 0 ∧
      s.app.physical_device = some d ∧ s.app.graphics_family = 0 ∧
      (Application.calloc config).graphics_family = 0 := by
  have h3 : rt.devices ≠ [] := by
    intro hnil
    rw [hnil] at hd
    cases hd
  obtain ⟨s, hs, hret, hp, _, hgf, _⟩ :=
    pick_physical_device_of_choice rt v.app stdin pick rounds h1 h2 h3 hc
  refine ⟨s, hs, hret, by rw [hp, hd], ?_, rfl⟩
  rw [hgf, hd, save_graphics_family_none _ _ hng, (vulkan_init_keeps _ _ _ hv).1,
    (window_init_keeps _ _).1]
  rfl

/-- C7, witness: the second of three devices has a single queue family without the
graphics bit; it is picked explicitly. -/
theorem c7_no_graphics_family_witness :
    ∃ s, pick_physical_device rt_three
        { Application.calloc (sample_config [] [] 1) with
          window := true, vk_instance := true,
          enabled_extension_count := 1, enabled_extensions := some [some (Ptr.required 0)],
          enabled_layers := some [] } []
        = Run.ret s ∧ s.ret = 0 ∧
      s.app.physical_device = some device_no_graphics ∧ s.app.graphics_family = 0 ∧
      (Application.calloc (sample_config [] [] 1)).graphics_family = 0 :=
  c7_no_graphics_family rt_three (sample_config [] [] 1) []
    { ret := 0,
      app := { Application.calloc (sample_config [] [] 1) with
        window := true, vk_instance := true,
        enabled_extension_count := 1, enabled_extensions := some [some (Ptr.required 0)],
        enabled_layers := some [] },
      trace := [Ev.acquire Res.available_extensions, Ev.acquire Res.enabled_extensions,
        Ev.acquire Res.available_layers, Ev.acquire Res.enabled_layers,
        Ev.acquire Res.vk_instance, Ev.release Res.available_layers,
        Ev.release Res.available_extensions] }
    1 0 device_no_graphics rfl rfl rfl rfl rfl (by decide)

/-! ## Staged start-up and teardown -/

/-- C9, at the failing input (window and instance are set up, the enumeration gives no
device, so stage 3 fails): `application_init` returns `NULL`; of the resources acquired
by the earlier stages the instance, the window, GLFW and the structure are released in
reverse order of acquisition, but the enabled-extension and enabled-layer arrays
allocated by `vulkan_init` are still held. `application_free` does release them, and does
nothing on `NULL`. -/
theorem c9_enabled_arrays_not_released :
    ∃ trace, application_init rt_no_device config_layer [] = Run.ret (none, trace) ∧
      trace = [Ev.acquire Res.app, Ev.acquire Res.glfw, Ev.acquire Res.window,
        Ev.acquire Res.available_extensions, Ev.acquire Res.enabled_extensions,
        Ev.acquire Res.available_layers, Ev.acquire Res.enabled_layers,
        Ev.acquire Res.vk_instance, Ev.release Res.available_layers,
        Ev.release Res.available_extensions,
        Ev.acquire Res.devices, Ev.release Res.devices,
        Ev.release Res.vk_instance, Ev.release Res.window, Ev.release Res.glfw,
        Ev.release Res.app] ∧
      live trace = [Res.enabled_extensions, Res.enabled_layers] ∧
      Ev.release Res.enabled_extensions ∈ application_free (some (Application.calloc config_layer)) ∧
      Ev.release Res.enabled_layers ∈ application_free (some (Application.calloc config_layer)) ∧
      application_free none = [] := by
  refine ⟨_, rfl, rfl, by decide, by decide, by decide, rfl⟩

end HwFractal
